import Mathlib

/-!
Shallow embedding of `src/server.js`, an Express relay with four stateless
handlers in front of the Meshy text-to-3D HTTP API:

  * `POST /api/preview`            → `previewHandler`
  * `POST /api/refine`             → `refineHandler`
  * `GET  /api/task/:taskId`       → `taskHandler`
  * `GET  /api/download/:taskId`   → `downloadHandler`

JavaScript values that flow through the handlers (request bodies, parsed
upstream JSON) are modelled by the inductive `JsVal`; numbers are `Int`
(no claim involves fractional values or NaN).  Each outbound `fetch` is
modelled by an oracle argument of type `Except String UpstreamResp`
(`.error msg` is a thrown transport exception whose `err.message` is
`msg`); the handler returns the HTTP response it sends together with the
ordered list of upstream calls it issued.  `express.json()` runs in its
default strict mode, so a handler's `req.body` is always a JSON object or
array (never `null`), which is why property destructuring is modelled by
the total `JsVal.getField`.  A 2xx upstream response carries both the raw
text (`textBody`, what `response.text()` yields) and its parse
(`jsonBody`, what `response.json()` yields); parsing is assumed to
succeed, matching the relay's contract with the upstream API.
-/

/-- A JavaScript/JSON value as seen by the relay handlers. -/
inductive JsVal where
  | undefined : JsVal
  | null : JsVal
  | bool : Bool → JsVal
  | num : Int → JsVal
  | str : String → JsVal
  | arr : List JsVal → JsVal
  | obj : List (String × JsVal) → JsVal

/-- JavaScript truthiness: `undefined`, `null`, `false`, `0` and `""` are
falsy; every other value (including all objects and arrays) is truthy. -/
def JsVal.truthy : JsVal → Bool
  | .undefined => false
  | .null => false
  | .bool b => b
  | .num n => decide (n ≠ 0)
  | .str s => s != ""
  | .arr _ => true
  | .obj _ => true

/-- Property access / destructuring: on an object, look the key up (first
binding wins, as in a parsed JSON object); on any non-object the named
property is absent, yielding `undefined`. -/
def JsVal.getField (v : JsVal) (k : String) : JsVal :=
  match v with
  | .obj fs =>
    match fs.lookup k with
    | some x => x
    | none => .undefined
  | _ => .undefined

/-- The keys of an object value, in order (empty for non-objects). -/
def JsVal.keys : JsVal → List String
  | .obj fs => fs.map Prod.fst
  | _ => []

/-- JavaScript strict equality `===` against a boolean literal: true
exactly for that same boolean; values of any other type compare
unequal. -/
def JsVal.strictEqBool (v : JsVal) (b : Bool) : Bool :=
  match v with
  | .bool c => c == b
  | _ => false

/-- JavaScript strict equality `===` against a string literal: true
exactly for the same string; values of any other type compare
unequal. -/
def JsVal.strictEqStr (v : JsVal) (s : String) : Bool :=
  match v with
  | .str t => t == s
  | _ => false

/-- An upstream JSON response: `status` with `textBody` the raw body text
and `jsonBody` its parse. -/
structure UpstreamResp where
  status : Nat
  textBody : String
  jsonBody : JsVal

/-- An upstream binary (CDN) response: `status` and the raw byte body. -/
structure BinResp where
  status : Nat
  bytes : List Nat

/-- The `response.ok` field of fetch: status in the range 200–299. -/
def respOk (r : UpstreamResp) : Bool :=
  decide (200 ≤ r.status) && decide (r.status < 300)

/-- The `response.ok` field of fetch for the binary download. -/
def binOk (m : BinResp) : Bool :=
  decide (200 ≤ m.status) && decide (m.status < 300)

/-- What a handler sends back: a JSON document (`res.json`, and the one
`res.send` of an object, which Express routes to `res.json`) or the piped
binary stream. -/
inductive ResBody where
  | json : JsVal → ResBody
  | stream : List Nat → ResBody

/-- The HTTP response delivered to the caller: status code, explicitly set
headers (in order of `res.setHeader` calls) and body. -/
structure HttpResponse where
  status : Nat
  headers : List (String × String)
  body : ResBody

/-- An outbound call issued by a handler: an authorized Meshy API call
(method, URL, optional JSON body) or the bare CDN fetch of the extracted
glb URL value. -/
inductive Call where
  | api : String → String → Option JsVal → Call
  | cdn : JsVal → Call

/-- The Meshy text-to-3D endpoint URL used by all API calls. -/
def textTo3dUrl : String := "https://api.meshy.ai/openapi/v2/text-to-3d"

/-- A JSON response with no explicitly set headers. -/
def jsonRes (status : Nat) (v : JsVal) : HttpResponse :=
  { status := status, headers := [], body := .json v }

/-- The error payload shape `\x7b error: msg \x7d` used on every failure
path of the relay. -/
def errObj (msg : String) : JsVal := .obj [("error", .str msg)]

/-- The outbound body built by `POST /api/preview` (server.js lines
23–29): `mode: "preview"`, `prompt || "3D object"`,
`art_style || "realistic"`, `should_remesh !== false`.  Strict
(in)equality against a boolean literal coincides with structural equality
because the literal is a primitive. -/
def previewBodyOf (body : JsVal) : JsVal :=
  let prompt := body.getField "prompt"
  let art_style := body.getField "art_style"
  let should_remesh := body.getField "should_remesh"
  .obj [("mode", .str "preview"),
        ("prompt", if prompt.truthy then prompt else .str "3D object"),
        ("art_style", if art_style.truthy then art_style else .str "realistic"),
        ("should_remesh", .bool (!should_remesh.strictEqBool false))]

/-- Handler of `POST /api/preview` (server.js lines 19–52). -/
def previewHandler (body : JsVal) (u : Except String UpstreamResp) :
    HttpResponse × List Call :=
  let call := Call.api "POST" textTo3dUrl (some (previewBodyOf body))
  match u with
  | .error msg => (jsonRes 500 (errObj msg), [call])
  | .ok r =>
    if !respOk r then (jsonRes r.status (errObj r.textBody), [call])
    else (jsonRes 200 r.jsonBody, [call])

/-- The outbound body built by `POST /api/refine` (server.js lines 66–70):
`mode: "refine"`, the given `preview_task_id`, `enable_pbr === true`. -/
def refineBodyOf (body : JsVal) : JsVal :=
  .obj [("mode", .str "refine"),
        ("preview_task_id", body.getField "preview_task_id"),
        ("enable_pbr", .bool ((body.getField "enable_pbr").strictEqBool true))]

/-- Handler of `POST /api/refine` (server.js lines 58–93); the guard is
JavaScript `!preview_task_id`, i.e. falsiness. -/
def refineHandler (body : JsVal) (u : Except String UpstreamResp) :
    HttpResponse × List Call :=
  if !(body.getField "preview_task_id").truthy then
    (jsonRes 400 (errObj "preview_task_id is required."), [])
  else
    let call := Call.api "POST" textTo3dUrl (some (refineBodyOf body))
    match u with
    | .error msg => (jsonRes 500 (errObj msg), [call])
    | .ok r =>
      if !respOk r then (jsonRes r.status (errObj r.textBody), [call])
      else (jsonRes 200 r.jsonBody, [call])

/-- Handler of `GET /api/task/:taskId` (server.js lines 99–122). -/
def taskHandler (taskId : String) (u : Except String UpstreamResp) :
    HttpResponse × List Call :=
  let call := Call.api "GET" (textTo3dUrl ++ "/" ++ taskId) none
  match u with
  | .error msg => (jsonRes 500 (errObj msg), [call])
  | .ok r =>
    if !respOk r then (jsonRes r.status (errObj r.textBody), [call])
    else (jsonRes 200 r.jsonBody, [call])

/-- Optional chaining `taskData.model_urls?.glb` (server.js line 153):
`undefined` when `model_urls` is `null`/`undefined`, otherwise the `glb`
property of it. -/
def glbUrlOf (taskData : JsVal) : JsVal :=
  match taskData.getField "model_urls" with
  | .undefined => .undefined
  | .null => .undefined
  | m => m.getField "glb"

/-- Handler of `GET /api/download/:taskId` (server.js lines 129–173):
status fetch, `status !== "SUCCEEDED"` guard, `!glbUrl` guard, binary
fetch, then the piped stream with the two set headers. -/
def downloadHandler (taskId : String) (u1 : Except String UpstreamResp)
    (u2 : Except String BinResp) : HttpResponse × List Call :=
  let statusCall := Call.api "GET" (textTo3dUrl ++ "/" ++ taskId) none
  match u1 with
  | .error msg => (jsonRes 500 (errObj msg), [statusCall])
  | .ok r =>
    if !respOk r then (jsonRes r.status (errObj r.textBody), [statusCall])
    else
      let taskData := r.jsonBody
      if !((taskData.getField "status").strictEqStr "SUCCEEDED") then
        (jsonRes 400 (errObj "Task is not complete or has failed."), [statusCall])
      else
        let glbUrl := glbUrlOf taskData
        if !glbUrl.truthy then
          (jsonRes 404 (errObj "GLB URL not found."), [statusCall])
        else
          match u2 with
          | .error msg => (jsonRes 500 (errObj msg), [statusCall, Call.cdn glbUrl])
          | .ok m =>
            if !binOk m then
              (jsonRes 500 (errObj "Failed to download GLB file."),
               [statusCall, Call.cdn glbUrl])
            else
              ({ status := 200,
                 headers := [("Content-Type", "model/gltf-binary"),
                             ("Content-Disposition",
                              "attachment; filename=\"" ++ taskId ++ ".glb\"")],
                 body := .stream m.bytes },
               [statusCall, Call.cdn glbUrl])

/-! Helper lemmas shared by the claim theorems, and concrete sample data
used by the witnesses. -/

/-- Strict equality against a boolean literal holds exactly for that
boolean value. -/
theorem strictEqBool_eq_true_iff (v : JsVal) (b : Bool) :
    v.strictEqBool b = true ↔ v = JsVal.bool b := by
  cases v <;> simp [JsVal.strictEqBool]

/-- Strict equality against a string literal holds exactly for that
string value. -/
theorem strictEqStr_eq_true_iff (v : JsVal) (s : String) :
    v.strictEqStr s = true ↔ v = JsVal.str s := by
  cases v <;> simp [JsVal.strictEqStr]

/-- A string value is truthy exactly when the string is non-empty. -/
theorem str_truthy_iff (s : String) : (JsVal.str s).truthy = true ↔ s ≠ "" := by
  simp [JsVal.truthy]

/-- The preview handler issues exactly one upstream call, the POST of the
built preview body, on every path. -/
theorem previewHandler_calls (body : JsVal) (u : Except String UpstreamResp) :
    (previewHandler body u).2 = [Call.api "POST" textTo3dUrl (some (previewBodyOf body))] := by
  cases u with
  | error msg => rfl
  | ok r => cases h : respOk r <;> simp [previewHandler, h]

/-- When the id guard passes, the refine handler issues exactly one
upstream call, the POST of the built refine body, on every path. -/
theorem refineHandler_calls (body : JsVal) (u : Except String UpstreamResp)
    (h : (body.getField "preview_task_id").truthy = true) :
    (refineHandler body u).2 = [Call.api "POST" textTo3dUrl (some (refineBodyOf body))] := by
  cases u with
  | error msg => simp [refineHandler, h]
  | ok r => cases hr : respOk r <;> simp [refineHandler, h, hr]

/-- When the id guard fails, the refine handler issues no upstream call
and reports the fixed validation error. -/
theorem refineHandler_rejects (body : JsVal) (u : Except String UpstreamResp)
    (h : (body.getField "preview_task_id").truthy = false) :
    refineHandler body u = (jsonRes 400 (errObj "preview_task_id is required."), []) := by
  simp [refineHandler, h]

/-- A sample non-success upstream response. -/
def sampleErrResp : UpstreamResp :=
  { status := 402, textBody := "quota exceeded", jsonBody := .null }

/-- A sample success response of a create-task call. -/
def sampleOkResp : UpstreamResp :=
  { status := 200, textBody := "\x7b\"result\":\"tsk_1\"\x7d",
    jsonBody := .obj [("result", .str "tsk_1")] }

/-- A sample success response carrying a still-pending task object. -/
def samplePendingResp : UpstreamResp :=
  { status := 200, textBody := "\x7b\"status\":\"PENDING\"\x7d",
    jsonBody := .obj [("status", .str "PENDING")] }

/-- A sample success response carrying a succeeded task object with a glb
URL. -/
def sampleDoneResp : UpstreamResp :=
  { status := 200, textBody := "\x7b\"status\":\"SUCCEEDED\"\x7d",
    jsonBody := .obj [("status", .str "SUCCEEDED"),
                      ("model_urls", .obj [("glb", .str "https://assets.meshy.ai/m.glb")])] }

/-- A sample success response carrying a succeeded task object without
`model_urls`. -/
def sampleNoGlbResp : UpstreamResp :=
  { status := 200, textBody := "\x7b\"status\":\"SUCCEEDED\"\x7d",
    jsonBody := .obj [("status", .str "SUCCEEDED")] }

/-- A sample successful binary response. -/
def sampleBinOk : BinResp := { status := 200, bytes := [103, 108, 84, 70, 2, 0] }

/-- A sample failed binary response. -/
def sampleBin404 : BinResp := { status := 404, bytes := [] }

/-- A sample refine request body with a non-empty preview task id. -/
def sampleRefineBody : JsVal := .obj [("preview_task_id", .str "pt_1")]

/-- Constructor injectivity for boolean values. -/
theorem jsBool_inj (a b : Bool) : JsVal.bool a = JsVal.bool b ↔ a = b := by
  constructor
  · intro h
    injection h
  · intro h
    rw [h]

/-- C2: for every task id, when the upstream read call succeeds (2xx
status), `GetTaskStatus` answers with status 200 and the upstream JSON
body passed through unchanged — no field of it is read or rewritten and
no header is set. -/
theorem task_status_passthrough (tid : String) (r : UpstreamResp)
    (hok : respOk r = true) :
    (taskHandler tid (.ok r)).1 = jsonRes 200 r.jsonBody := by
  simp [taskHandler, hok]

/-- Witness for C2 at a concrete task object. -/
theorem task_status_passthrough_witness :
    (taskHandler "tsk_1" (.ok sampleDoneResp)).1 = jsonRes 200 sampleDoneResp.jsonBody :=
  task_status_passthrough "tsk_1" sampleDoneResp rfl

/-- C3: when the status fetch of `DownloadModel` succeeds but the task's
`status` is not the literal string "SUCCEEDED", the handler answers
HTTP 400 with the fixed message and issues only the one status-fetch
call — no binary fetch, whatever the binary oracle would answer. -/
theorem download_not_succeeded (tid : String) (r : UpstreamResp)
    (u2 : Except String BinResp) (hok : respOk r = true)
    (hst : (r.jsonBody.getField "status").strictEqStr "SUCCEEDED" = false) :
    (downloadHandler tid (.ok r) u2).1 =
      jsonRes 400 (errObj "Task is not complete or has failed.") ∧
    (downloadHandler tid (.ok r) u2).2 =
      [Call.api "GET" (textTo3dUrl ++ "/" ++ tid) none] := by
  constructor <;> simp [downloadHandler, hok, hst]

/-- Witness for C3 at a concrete pending task. -/
theorem download_not_succeeded_witness :
    (downloadHandler "t1" (.ok samplePendingResp) (.ok sampleBinOk)).1 =
      jsonRes 400 (errObj "Task is not complete or has failed.") ∧
    (downloadHandler "t1" (.ok samplePendingResp) (.ok sampleBinOk)).2 =
      [Call.api "GET" (textTo3dUrl ++ "/" ++ "t1") none] :=
  download_not_succeeded "t1" samplePendingResp (.ok sampleBinOk) rfl rfl

/-- C5: when `preview_task_id` is missing from the request body or is the
empty string, `CreateRefineTask` answers HTTP 400 with the fixed message
"preview_task_id is required." and issues zero upstream calls. -/
theorem refine_missing_id (body : JsVal) (u : Except String UpstreamResp)
    (h : body.getField "preview_task_id" = JsVal.undefined ∨
         body.getField "preview_task_id" = JsVal.str "") :
    (refineHandler body u).1 = jsonRes 400 (errObj "preview_task_id is required.") ∧
    (refineHandler body u).2 = [] := by
  have ht : (body.getField "preview_task_id").truthy = false := by
    rcases h with h | h <;> rw [h] <;> rfl
  rw [refineHandler_rejects body u ht]
  exact ⟨rfl, rfl⟩

/-- Witness for C5 at the empty request body. -/
theorem refine_missing_id_witness :
    (refineHandler (JsVal.obj []) (.ok sampleOkResp)).1 =
      jsonRes 400 (errObj "preview_task_id is required.") ∧
    (refineHandler (JsVal.obj []) (.ok sampleOkResp)).2 = [] :=
  refine_missing_id (JsVal.obj []) (.ok sampleOkResp) (Or.inl rfl)

/-- C7: when the status fetch of `DownloadModel` succeeds with a
"SUCCEEDED" task whose `model_urls.glb` is absent, the handler answers
HTTP 404 with "GLB URL not found." and issues only the one status-fetch
call — no binary fetch. -/
theorem download_missing_glb (tid : String) (r : UpstreamResp)
    (u2 : Except String BinResp) (hok : respOk r = true)
    (hst : (r.jsonBody.getField "status").strictEqStr "SUCCEEDED" = true)
    (hglb : glbUrlOf r.jsonBody = JsVal.undefined) :
    (downloadHandler tid (.ok r) u2).1 = jsonRes 404 (errObj "GLB URL not found.") ∧
    (downloadHandler tid (.ok r) u2).2 =
      [Call.api "GET" (textTo3dUrl ++ "/" ++ tid) none] := by
  constructor <;> simp [downloadHandler, hok, hst, hglb, JsVal.truthy]

/-- Witness for C7 at a concrete succeeded task without `model_urls`. -/
theorem download_missing_glb_witness :
    (downloadHandler "t1" (.ok sampleNoGlbResp) (.ok sampleBinOk)).1 =
      jsonRes 404 (errObj "GLB URL not found.") ∧
    (downloadHandler "t1" (.ok sampleNoGlbResp) (.ok sampleBinOk)).2 =
      [Call.api "GET" (textTo3dUrl ++ "/" ++ "t1") none] :=
  download_missing_glb "t1" sampleNoGlbResp (.ok sampleBinOk) rfl rfl rfl

/-- C4: for every request body, `CreatePreviewTask` issues exactly one
upstream create-task call; its body carries `mode = "preview"`, the
default prompt "3D object" when `prompt` is omitted, the default
art style "realistic" when `art_style` is omitted, and `should_remesh`
is false exactly for the literal boolean `false` — any other value,
omission included, yields true. -/
theorem preview_outbound (body : JsVal) (u : Except String UpstreamResp) :
    (previewHandler body u).2 =
      [Call.api "POST" textTo3dUrl (some (previewBodyOf body))] ∧
    (previewBodyOf body).getField "mode" = JsVal.str "preview" ∧
    (body.getField "prompt" = JsVal.undefined →
      (previewBodyOf body).getField "prompt" = JsVal.str "3D object") ∧
    (body.getField "art_style" = JsVal.undefined →
      (previewBodyOf body).getField "art_style" = JsVal.str "realistic") ∧
    (body.getField "should_remesh" = JsVal.bool false →
      (previewBodyOf body).getField "should_remesh" = JsVal.bool false) ∧
    (body.getField "should_remesh" ≠ JsVal.bool false →
      (previewBodyOf body).getField "should_remesh" = JsVal.bool true) := by
  have hprompt : (previewBodyOf body).getField "prompt" =
      if (body.getField "prompt").truthy then body.getField "prompt"
      else JsVal.str "3D object" := rfl
  have hart : (previewBodyOf body).getField "art_style" =
      if (body.getField "art_style").truthy then body.getField "art_style"
      else JsVal.str "realistic" := rfl
  have hrm : (previewBodyOf body).getField "should_remesh" =
      JsVal.bool (!(body.getField "should_remesh").strictEqBool false) := rfl
  refine ⟨previewHandler_calls body u, rfl, ?_, ?_, ?_, ?_⟩
  · intro h
    rw [hprompt, h]
    rfl
  · intro h
    rw [hart, h]
    rfl
  · intro h
    rw [hrm, h]
    rfl
  · intro h
    have hb : (body.getField "should_remesh").strictEqBool false = false := by
      cases hc : (body.getField "should_remesh").strictEqBool false
      · rfl
      · exact absurd ((strictEqBool_eq_true_iff _ _).1 hc) h
    rw [hrm, hb]
    rfl

/-- Witness for C4 at the empty request body (all defaults). -/
theorem preview_outbound_witness :
    (previewHandler (JsVal.obj []) (.ok sampleOkResp)).2 =
      [Call.api "POST" textTo3dUrl (some (previewBodyOf (JsVal.obj [])))] ∧
    (previewBodyOf (JsVal.obj [])).getField "prompt" = JsVal.str "3D object" ∧
    (previewBodyOf (JsVal.obj [])).getField "art_style" = JsVal.str "realistic" ∧
    (previewBodyOf (JsVal.obj [])).getField "should_remesh" = JsVal.bool true :=
  ⟨(preview_outbound (JsVal.obj []) (.ok sampleOkResp)).1,
   (preview_outbound (JsVal.obj []) (.ok sampleOkResp)).2.2.1 rfl,
   (preview_outbound (JsVal.obj []) (.ok sampleOkResp)).2.2.2.1 rfl,
   (preview_outbound (JsVal.obj []) (.ok sampleOkResp)).2.2.2.2.2
     (fun h => JsVal.noConfusion h)⟩

/-- C6: for every request body whose `preview_task_id` is a non-empty
string, the `enable_pbr` field of the single outbound refine request is
the boolean true exactly when the input `enable_pbr` is the literal
boolean `true`; any other input value yields false. -/
theorem refine_enable_pbr (body : JsVal) (u : Except String UpstreamResp)
    (s : String) (hid : body.getField "preview_task_id" = JsVal.str s)
    (hs : s ≠ "") :
    (refineHandler body u).2 =
      [Call.api "POST" textTo3dUrl (some (refineBodyOf body))] ∧
    ((refineBodyOf body).getField "enable_pbr" = JsVal.bool true ↔
      body.getField "enable_pbr" = JsVal.bool true) ∧
    (body.getField "enable_pbr" ≠ JsVal.bool true →
      (refineBodyOf body).getField "enable_pbr" = JsVal.bool false) := by
  have ht : (body.getField "preview_task_id").truthy = true := by
    rw [hid]
    exact (str_truthy_iff s).2 hs
  have hpbr : (refineBodyOf body).getField "enable_pbr" =
      JsVal.bool ((body.getField "enable_pbr").strictEqBool true) := rfl
  refine ⟨refineHandler_calls body u ht, ?_, ?_⟩
  · rw [hpbr, jsBool_inj]
    exact strictEqBool_eq_true_iff _ _
  · intro h
    have hb : (body.getField "enable_pbr").strictEqBool true = false := by
      cases hc : (body.getField "enable_pbr").strictEqBool true
      · rfl
      · exact absurd ((strictEqBool_eq_true_iff _ _).1 hc) h
    rw [hpbr, hb]

/-- Witness for C6 at a concrete body with `enable_pbr` omitted. -/
theorem refine_enable_pbr_witness :
    (refineHandler sampleRefineBody (.ok sampleOkResp)).2 =
      [Call.api "POST" textTo3dUrl (some (refineBodyOf sampleRefineBody))] ∧
    (refineBodyOf sampleRefineBody).getField "enable_pbr" = JsVal.bool false :=
  ⟨(refine_enable_pbr sampleRefineBody (.ok sampleOkResp) "pt_1" rfl (by decide)).1,
   (refine_enable_pbr sampleRefineBody (.ok sampleOkResp) "pt_1" rfl (by decide)).2.2
     (fun h => JsVal.noConfusion h)⟩

/-- C9: a `prompt` or `art_style` present in the body but falsy (the
empty string, `0`, `false`, `null`) is replaced by the same default as an
omitted field, and the falsy values — absence (`undefined`) included —
all take that same branch, so presence with a falsy value is
indistinguishable from absence in the outbound body. -/
theorem preview_falsy_defaults (body : JsVal) :
    ((body.getField "prompt").truthy = false →
      (previewBodyOf body).getField "prompt" = JsVal.str "3D object") ∧
    ((body.getField "art_style").truthy = false →
      (previewBodyOf body).getField "art_style" = JsVal.str "realistic") ∧
    JsVal.undefined.truthy = false ∧ (JsVal.str "").truthy = false ∧
    JsVal.null.truthy = false ∧ (JsVal.bool false).truthy = false ∧
    (JsVal.num 0).truthy = false := by
  have hprompt : (previewBodyOf body).getField "prompt" =
      if (body.getField "prompt").truthy then body.getField "prompt"
      else JsVal.str "3D object" := rfl
  have hart : (previewBodyOf body).getField "art_style" =
      if (body.getField "art_style").truthy then body.getField "art_style"
      else JsVal.str "realistic" := rfl
  refine ⟨?_, ?_, rfl, rfl, rfl, rfl, rfl⟩
  · intro h
    rw [hprompt, h]
    rfl
  · intro h
    rw [hart, h]
    rfl

/-- Witness for C9 at a body carrying an empty prompt and a zero
art style. -/
theorem preview_falsy_defaults_witness :
    (previewBodyOf (JsVal.obj [("prompt", .str ""), ("art_style", .num 0)])).getField
      "prompt" = JsVal.str "3D object" ∧
    (previewBodyOf (JsVal.obj [("prompt", .str ""), ("art_style", .num 0)])).getField
      "art_style" = JsVal.str "realistic" :=
  ⟨(preview_falsy_defaults (JsVal.obj [("prompt", .str ""), ("art_style", .num 0)])).1
     rfl,
   (preview_falsy_defaults (JsVal.obj [("prompt", .str ""), ("art_style", .num 0)])).2.1
     (by decide)⟩

/-- C8: for a succeeded task with a non-empty glb URL, a successful binary
fetch is answered with the two headers `Content-Type: model/gltf-binary`
and `Content-Disposition: attachment; filename="<taskId>.glb"` and the
upstream byte body piped through unchanged, while a non-success binary
fetch is answered with HTTP 500 and the fixed message
"Failed to download GLB file.". -/
theorem download_success_stream (tid : String) (r : UpstreamResp)
    (hok : respOk r = true)
    (hst : (r.jsonBody.getField "status").strictEqStr "SUCCEEDED" = true)
    (url : String) (hglb : glbUrlOf r.jsonBody = JsVal.str url) (hurl : url ≠ "")
    (b bBad : BinResp) (hb : binOk b = true) (hbad : binOk bBad = false) :
    (downloadHandler tid (.ok r) (.ok b)).1 =
      { status := 200,
        headers := [("Content-Type", "model/gltf-binary"),
                    ("Content-Disposition", "attachment; filename=\"" ++ tid ++ ".glb\"")],
        body := ResBody.stream b.bytes } ∧
    (downloadHandler tid (.ok r) (.ok bBad)).1 =
      jsonRes 500 (errObj "Failed to download GLB file.") := by
  have ht : (glbUrlOf r.jsonBody).truthy = true := by
    rw [hglb]
    exact (str_truthy_iff url).2 hurl
  constructor <;> simp [downloadHandler, hok, hst, ht, hb, hbad]

/-- Witness for C8 at a concrete succeeded task and binary responses. -/
theorem download_success_stream_witness :
    (downloadHandler "t1" (.ok sampleDoneResp) (.ok sampleBinOk)).1 =
      { status := 200,
        headers := [("Content-Type", "model/gltf-binary"),
                    ("Content-Disposition", "attachment; filename=\"" ++ "t1" ++ ".glb\"")],
        body := ResBody.stream sampleBinOk.bytes } ∧
    (downloadHandler "t1" (.ok sampleDoneResp) (.ok sampleBin404)).1 =
      jsonRes 500 (errObj "Failed to download GLB file.") :=
  download_success_stream "t1" sampleDoneResp rfl rfl "https://assets.meshy.ai/m.glb"
    rfl (by decide) sampleBinOk sampleBin404 rfl rfl

/-- C10: the outbound upstream request depends only on the enumerated
fields of the client body — two bodies agreeing on `prompt`, `art_style`
and `should_remesh` produce identical preview calls, two bodies agreeing
on `preview_task_id` and `enable_pbr` produce identical refine calls (any
extra client fields are never forwarded), and each outbound body carries
exactly the enumerated fields plus `mode`. -/
theorem outbound_field_projection (b1 b2 : JsVal) (u : Except String UpstreamResp) :
    ((b1.getField "prompt" = b2.getField "prompt" ∧
      b1.getField "art_style" = b2.getField "art_style" ∧
      b1.getField "should_remesh" = b2.getField "should_remesh") →
      (previewHandler b1 u).2 = (previewHandler b2 u).2) ∧
    ((b1.getField "preview_task_id" = b2.getField "preview_task_id" ∧
      b1.getField "enable_pbr" = b2.getField "enable_pbr") →
      (refineHandler b1 u).2 = (refineHandler b2 u).2) ∧
    (previewBodyOf b1).keys = ["mode", "prompt", "art_style", "should_remesh"] ∧
    (refineBodyOf b1).keys = ["mode", "preview_task_id", "enable_pbr"] := by
  refine ⟨?_, ?_, rfl, rfl⟩
  · rintro ⟨h1, h2, h3⟩
    have hb : previewBodyOf b1 = previewBodyOf b2 := by
      simp only [previewBodyOf, h1, h2, h3]
    rw [previewHandler_calls b1 u, previewHandler_calls b2 u, hb]
  · rintro ⟨h1, h2⟩
    have hb : refineBodyOf b1 = refineBodyOf b2 := by
      simp only [refineBodyOf, h1, h2]
    cases ht : (b1.getField "preview_task_id").truthy
    · have ht2 : (b2.getField "preview_task_id").truthy = false := by
        rw [← h1]
        exact ht
      rw [refineHandler_rejects b1 u ht, refineHandler_rejects b2 u ht2]
    · have ht2 : (b2.getField "preview_task_id").truthy = true := by
        rw [← h1]
        exact ht
      rw [refineHandler_calls b1 u ht, refineHandler_calls b2 u ht2, hb]

/-- Witness for C10: a body with an extra field issues the same calls as
the body without it. -/
theorem outbound_field_projection_witness :
    (previewHandler (JsVal.obj [("prompt", .str "a dragon"), ("extra", .num 7)])
        (.ok sampleOkResp)).2 =
      (previewHandler (JsVal.obj [("prompt", .str "a dragon")]) (.ok sampleOkResp)).2 ∧
    (previewBodyOf (JsVal.obj [("prompt", .str "a dragon"), ("extra", .num 7)])).keys =
      ["mode", "prompt", "art_style", "should_remesh"] :=
  ⟨(outbound_field_projection (JsVal.obj [("prompt", .str "a dragon"), ("extra", .num 7)])
      (JsVal.obj [("prompt", .str "a dragon")]) (.ok sampleOkResp)).1 ⟨rfl, rfl, rfl⟩,
   (outbound_field_projection (JsVal.obj [("prompt", .str "a dragon"), ("extra", .num 7)])
      (JsVal.obj [("prompt", .str "a dragon")]) (.ok sampleOkResp)).2.2.1⟩

/-- C1 counterexample: with the status fetch succeeding on a "SUCCEEDED"
task carrying a glb URL, but the second upstream call (the binary fetch)
answering the non-success status 404, `DownloadModel` does not relay the
404 or the upstream body — it answers the fixed 500, so the claim fails
for one of the four operations. -/
theorem c1_counterexample :
    binOk sampleBin404 = false ∧
    sampleBin404.status = 404 ∧
    (downloadHandler "t1" (.ok sampleDoneResp) (.ok sampleBin404)).1.status = 500 ∧
    (downloadHandler "t1" (.ok sampleDoneResp) (.ok sampleBin404)).1.status ≠
      sampleBin404.status ∧
    (downloadHandler "t1" (.ok sampleDoneResp) (.ok sampleBin404)).1 =
      jsonRes 500 (errObj "Failed to download GLB file.") :=
  ⟨rfl, rfl, rfl, by decide, rfl⟩

/-- C1 amended: the create-task and status-fetch upstream calls of all
four operations relay a non-success upstream status verbatim — the same
status code, with the upstream body text unmodified as the error
payload — while the one exception is the second upstream call of
`DownloadModel` (the binary fetch), whose non-success yields HTTP 500
with the fixed message "Failed to download GLB file.". -/
theorem relay_nonsuccess_amended
    (pb rb : JsVal) (tid : String)
    (r : UpstreamResp) (hr : respOk r = false)
    (hid : (rb.getField "preview_task_id").truthy = true)
    (u2 : Except String BinResp)
    (s : UpstreamResp) (hok : respOk s = true)
    (hst : (s.jsonBody.getField "status").strictEqStr "SUCCEEDED" = true)
    (hglb : (glbUrlOf s.jsonBody).truthy = true)
    (b : BinResp) (hb : binOk b = false) :
    (previewHandler pb (.ok r)).1 = jsonRes r.status (errObj r.textBody) ∧
    (refineHandler rb (.ok r)).1 = jsonRes r.status (errObj r.textBody) ∧
    (taskHandler tid (.ok r)).1 = jsonRes r.status (errObj r.textBody) ∧
    (downloadHandler tid (.ok r) u2).1 = jsonRes r.status (errObj r.textBody) ∧
    (downloadHandler tid (.ok s) (.ok b)).1 =
      jsonRes 500 (errObj "Failed to download GLB file.") := by
  refine ⟨?_, ?_, ?_, ?_, ?_⟩
  · simp [previewHandler, hr]
  · simp [refineHandler, hid, hr]
  · simp [taskHandler, hr]
  · simp [downloadHandler, hr]
  · simp [downloadHandler, hok, hst, hglb, hb]

/-- Witness for the amended C1 at concrete upstream responses. -/
theorem relay_nonsuccess_amended_witness :
    (previewHandler (JsVal.obj []) (.ok sampleErrResp)).1 =
      jsonRes sampleErrResp.status (errObj sampleErrResp.textBody) ∧
    (refineHandler sampleRefineBody (.ok sampleErrResp)).1 =
      jsonRes sampleErrResp.status (errObj sampleErrResp.textBody) ∧
    (taskHandler "t1" (.ok sampleErrResp)).1 =
      jsonRes sampleErrResp.status (errObj sampleErrResp.textBody) ∧
    (downloadHandler "t1" (.ok sampleErrResp) (.ok sampleBinOk)).1 =
      jsonRes sampleErrResp.status (errObj sampleErrResp.textBody) ∧
    (downloadHandler "t1" (.ok sampleDoneResp) (.ok sampleBin404)).1 =
      jsonRes 500 (errObj "Failed to download GLB file.") :=
  relay_nonsuccess_amended (JsVal.obj []) sampleRefineBody "t1" sampleErrResp rfl rfl
    (.ok sampleBinOk) sampleDoneResp rfl rfl rfl sampleBin404 rfl
